import Mathlib

-- Verification of the decorators teaching script.
--
-- Modelling conventions:
-- * Python numeric literals (int and float) are embedded as exact rationals ℚ
--   where fractional values occur (the circle radius and area), and as Int
--   where the source only manipulates integers (ages, the class counter).
-- * Console output is modelled as an explicit trace: a function that prints
--   returns the list of printed lines alongside its return value.
-- * A raised exception is an explicit error value.  A mutating method that can
--   raise returns the post-call object state together with an optional error;
--   when it raises before mutating, the returned state is the unchanged input.
-- * The attribute `self._radius`, which `del` can remove, is an `Option ℚ`:
--   `Option.none` means the attribute does not exist on the instance.

namespace Decorators

/-- The exceptions raised in the script: `ValueError` from the radius setter,
and `AttributeError` from touching a deleted `_radius` attribute. -/
inductive PyError where
  | valueError (msg : String)
  | attributeError (msg : String)
deriving DecidableEq

/-- Message of the `ValueError` raised by the radius setter (decorators.py:263). -/
def radiusMsg : String := "Radius must be positive"

/-- Message of the `AttributeError` Python raises on accessing the deleted
`_radius` attribute. -/
def noRadiusMsg : String := "\x27Circle\x27 object has no attribute \x27_radius\x27"

/-- A Python runtime value, restricted to the kinds the script passes around. -/
inductive PyVal where
  | none
  | int (n : Int)
  | str (s : String)
deriving DecidableEq

/-- `repr` of a single value, as Python would render it inside a tuple/dict. -/
def reprVal : PyVal → String
  | PyVal.none => "None"
  | PyVal.int n => toString n
  | PyVal.str s => "\x27" ++ s ++ "\x27"

/-- Join rendered elements with Python's ", " separator. -/
def joinComma : List String → String
  | [] => ""
  | [s] => s
  | s :: rest => s ++ ", " ++ joinComma rest

/-- Python's `repr` of the `*args` tuple (`()`, `(1,)`, `(1, 2)`, ...). -/
def reprTuple (args : List PyVal) : String :=
  match args with
  | [] => "()"
  | [v] => "(" ++ reprVal v ++ ",)"
  | vs => "(" ++ joinComma (vs.map reprVal) ++ ")"

/-- Python's `repr` of the `**kwargs` dict. -/
def reprDict (kwargs : List (String × PyVal)) : String :=
  "\x7b" ++ joinComma (kwargs.map fun p => "\x27" ++ p.1 ++ "\x27: " ++ reprVal p.2) ++ "\x7d"

/-- A Python function as the wrapper sees it: it takes the collected positional
arguments (`*args`) and keyword arguments (`**kwargs`) and produces the lines
it prints together with its return value. -/
abbrev PyFunc := List PyVal → List (String × PyVal) → List String × PyVal

/-- The `log` decorator (decorators.py:41-83): returns `wrapper`, which prints
the calling message, calls `func` with the forwarded arguments, prints the
completion message, and implicitly returns `None` (the return value of `func`
is discarded). -/
def log (func : PyFunc) : PyFunc :=
  fun args kwargs =>
    let msg1 := "Calling the wrapped function with arguments " ++ reprTuple args ++ ", " ++ reprDict kwargs
    let res := func args kwargs
    let msg2 := "Wrapped function execution complete!"
    (msg1 :: (res.1 ++ [msg2]), PyVal.none)

/-- The `add` function (decorators.py:87-90): sums its two integer arguments,
prints `Sum = ...` and returns the sum.  It accepts its arguments either
positionally or as the keywords `num1`/`num2`. -/
def add : PyFunc :=
  fun args kwargs =>
    match args, kwargs with
    | [PyVal.int n1, PyVal.int n2], [] =>
      let sum := n1 + n2
      (["Sum = " ++ toString sum], PyVal.int sum)
    | [], [(k1, PyVal.int n1), (k2, PyVal.int n2)] =>
      if k1 = "num1" ∧ k2 = "num2" then
        let sum := n1 + n2
        (["Sum = " ++ toString sum], PyVal.int sum)
      else ([], PyVal.none)
    | _, _ => ([], PyVal.none)

/-- The class attribute `MyClass.count` at module load (decorators.py:196). -/
def MyClass.count : Int := 0

/-- `MyClass.increment_count` (decorators.py:198-200): `cls.count += 1`,
modelled as a function from the current class-level counter to the next. -/
def MyClass.increment_count (count : Int) : Int := count + 1

/-- The `Person` class (decorators.py:210-214): plain `name`/`age` fields. -/
structure Person where
  name : String
  age : Int
deriving DecidableEq

/-- The factory method `Person.from_birth_year` (decorators.py:217-221). -/
def Person.from_birth_year (name : String) (birth_year : Int) : Person :=
  let current_year : Int := 2025
  let age := current_year - birth_year
  { name := name, age := age }

/-- The `Circle` class (decorators.py:234-277).  Its only instance attribute is
`_radius`; `Option.none` models the attribute having been deleted. -/
structure Circle where
  _radius : Option ℚ
deriving DecidableEq

/-- `Circle.__init__` (decorators.py:236-239): stores the argument verbatim in
`self._radius`, with no validation. -/
def Circle.init (radius : ℚ) : Circle :=
  { _radius := Option.some radius }

/-- The `radius` property getter (decorators.py:247-249): returns
`self._radius`, or raises `AttributeError` when `_radius` was deleted. -/
def Circle.radius (c : Circle) : Except PyError ℚ :=
  match c._radius with
  | Option.some r => Except.ok r
  | Option.none => Except.error (PyError.attributeError noRadiusMsg)

/-- The `radius` property setter (decorators.py:258-263): stores the value when
`value > 0`, otherwise raises `ValueError` leaving the object untouched.  The
result is the post-call state paired with the raised exception, if any. -/
def Circle.radius_set (c : Circle) (value : ℚ) : Circle × Option PyError :=
  if value > 0 then ({ c with _radius := Option.some value }, Option.none)
  else (c, Option.some (PyError.valueError radiusMsg))

/-- The `radius` property deleter (decorators.py:266-270): `del self._radius`.
When the attribute is already gone, `del` raises `AttributeError` and the state
is unchanged. -/
def Circle.radius_del (c : Circle) : Circle × Option PyError :=
  match c._radius with
  | Option.some _ => ({ c with _radius := Option.none }, Option.none)
  | Option.none => (c, Option.some (PyError.attributeError noRadiusMsg))

/-- The `area` property getter (decorators.py:275-277):
`3.14 * self.radius ** 2`, going through the `radius` getter. -/
def Circle.area (c : Circle) : Except PyError ℚ :=
  match Circle.radius c with
  | Except.ok r => Except.ok ((3.14 : ℚ) * r ^ 2)
  | Except.error e => Except.error e

/-- A sequence of assignments `c.radius = v` executed left to right; the first
raised exception aborts the sequence. -/
def Circle.setSeq (c : Circle) : List ℚ → Except PyError Circle
  | [] => Except.ok c
  | v :: vs =>
    match Circle.radius_set c v with
    | (c2, Option.none) => Circle.setSeq c2 vs
    | (_, Option.some e) => Except.error e

/-- Claim C1: for every Circle `c` and value `v`, the assignment `c.radius = v`
stores `v` as the radius when `v > 0`, and raises `ValueError` ("Radius must be
positive") when `v ≤ 0`; the two exhaustive cases make the raise happen in
exactly the non-positive case. -/
theorem C1_radius_setter (c : Circle) (v : ℚ) :
    (v > 0 → Circle.radius_set c v = ({ c with _radius := Option.some v }, Option.none)) ∧
    (v ≤ 0 → Circle.radius_set c v = (c, Option.some (PyError.valueError radiusMsg))) := by
  constructor
  · intro h
    simp [Circle.radius_set, h]
  · intro h
    simp [Circle.radius_set, not_lt.mpr h]

/-- Claim C1 witness: the setter at the concrete values 2 (stores) and -1
(raises), on a circle of radius 5. -/
theorem C1_radius_setter_witness :
    Circle.radius_set (Circle.init 5) 2 = ({ Circle.init 5 with _radius := Option.some 2 }, Option.none) ∧
    Circle.radius_set (Circle.init 5) (-1) = (Circle.init 5, Option.some (PyError.valueError radiusMsg)) :=
  ⟨(C1_radius_setter (Circle.init 5) 2).1 (by norm_num),
   (C1_radius_setter (Circle.init 5) (-1)).2 (by norm_num)⟩

/-- Every non-raising assignment sequence started from a circle whose stored
radius is positive ends with a positive stored radius. -/
theorem setSeq_pos (vs : List ℚ) :
    ∀ c c2 : Circle, (∃ s, c._radius = Option.some s ∧ s > 0) →
      Circle.setSeq c vs = Except.ok c2 →
      ∃ s, c2._radius = Option.some s ∧ s > 0 := by
  induction vs with
  | nil =>
    intro c c2 h heq
    simp only [Circle.setSeq, Except.ok.injEq] at heq
    subst heq
    exact h
  | cons v vs ih =>
    intro c c2 h heq
    by_cases hv : v > 0
    · simp only [Circle.setSeq, Circle.radius_set, if_pos hv] at heq
      exact ih _ _ ⟨v, rfl, hv⟩ heq
    · simp only [Circle.setSeq, Circle.radius_set, if_neg hv] at heq
      cases heq

/-- Claim C2 counterexample: `Circle(-5)` followed by the empty sequence of
assignments raises nothing, yet the stored radius is -5, which is not
positive — the constructor performs no validation. -/
theorem C2_counterexample :
    Circle.setSeq (Circle.init (-5)) [] = Except.ok (Circle.init (-5)) ∧
    (Circle.init (-5))._radius = Option.some (-5) ∧ ¬ ((-5 : ℚ) > 0) :=
  ⟨rfl, rfl, by norm_num⟩

/-- Claim C2 (amended): for every Circle constructed with a POSITIVE initial
radius and any sequence of radius assignments that did not raise, the stored
radius is positive.  The positivity hypothesis on the constructor argument is
forced: `Circle.__init__` stores its argument without validating it. -/
theorem C2_amended (r : ℚ) (vs : List ℚ) (c2 : Circle) (hr : r > 0)
    (h : Circle.setSeq (Circle.init r) vs = Except.ok c2) :
    ∃ s, c2._radius = Option.some s ∧ s > 0 :=
  setSeq_pos vs (Circle.init r) c2 ⟨r, rfl, hr⟩ h

/-- Claim C2 (amended) witness: `Circle(5)` with assignments `[3, 7]`. -/
theorem C2_amended_witness :
    ∃ s, (Circle.init 7)._radius = Option.some s ∧ s > 0 :=
  C2_amended 5 [3, 7] (Circle.init 7) (by norm_num) (by
    simp [Circle.setSeq, Circle.radius_set, Circle.init])

/-- Claim C3: `log func` is a wrapper that prints the calling message, invokes
`func` exactly once with exactly the forwarded arguments (its printed output
appears once, between the two messages), prints the completion message, and
returns `None`, discarding the return value of `func`.  Concretely, the
decorated `add` called on (1, 2) prints three lines and returns `None`. -/
theorem C3_log_wrapper (func : PyFunc) (args : List PyVal) (kwargs : List (String × PyVal)) :
    log func args kwargs =
      (("Calling the wrapped function with arguments " ++ reprTuple args ++ ", " ++ reprDict kwargs)
          :: ((func args kwargs).1 ++ ["Wrapped function execution complete!"]),
        PyVal.none) ∧
    log add [PyVal.int 1, PyVal.int 2] [] =
      (["Calling the wrapped function with arguments (1, 2), \x7b\x7d", "Sum = 3",
        "Wrapped function execution complete!"], PyVal.none) :=
  ⟨rfl, rfl⟩

/-- Claim C4: `Person.from_birth_year name birth_year` returns a Person whose
name field is `name` and whose age field is `2025 - birth_year`; in particular
birth year 1990 yields age 35. -/
theorem C4_from_birth_year (name : String) (birth_year : Int) :
    (Person.from_birth_year name birth_year).name = name ∧
    (Person.from_birth_year name birth_year).age = 2025 - birth_year ∧
    Person.from_birth_year ("Bob") 1990 = { name := "Bob", age := 35 } :=
  ⟨rfl, rfl, rfl⟩

/-- Claim C5: `MyClass.count` is initialized to 0, each `increment_count` call
adds exactly 1 to the class-level counter, and one call from the initial state
yields 1. -/
theorem C5_increment_count (c : Int) :
    MyClass.count = 0 ∧ MyClass.increment_count c = c + 1 ∧
    MyClass.increment_count MyClass.count = 1 :=
  ⟨rfl, rfl, rfl⟩

/-- Claim C6: when `c.radius = v` raises because `v` is non-positive, the error
surfaces immediately to the caller and the Circle state is completely
unchanged (the returned state is the input state, all attributes included). -/
theorem C6_failed_set_unchanged (c : Circle) (v : ℚ) (h : v ≤ 0) :
    Circle.radius_set c v = (c, Option.some (PyError.valueError radiusMsg)) := by
  unfold Circle.radius_set
  rw [if_neg (not_lt.mpr h)]

/-- Claim C6 witness: assigning 0 to `Circle(5)` raises and leaves it as is. -/
theorem C6_failed_set_unchanged_witness :
    Circle.radius_set (Circle.init 5) 0 = (Circle.init 5, Option.some (PyError.valueError radiusMsg)) :=
  C6_failed_set_unchanged (Circle.init 5) 0 (by norm_num)

/-- Claim C7: `Person.from_birth_year` is deterministic: two calls with equal
`name` and `birth_year` arguments return Persons with equal name fields and
equal age fields; being a pure function of its two arguments (and the
hard-coded year 2025), the result depends on nothing else. -/
theorem C7_from_birth_year_deterministic (n n2 : String) (b b2 : Int)
    (hn : n = n2) (hb : b = b2) :
    (Person.from_birth_year n b).name = (Person.from_birth_year n2 b2).name ∧
    (Person.from_birth_year n b).age = (Person.from_birth_year n2 b2).age := by
  subst hn
  subst hb
  exact ⟨rfl, rfl⟩

/-- Claim C7 witness: two calls at ("Bob", 1990) agree on both fields. -/
theorem C7_from_birth_year_deterministic_witness :
    (Person.from_birth_year ("Bob") 1990).name = (Person.from_birth_year ("Bob") 1990).name ∧
    (Person.from_birth_year ("Bob") 1990).age = (Person.from_birth_year ("Bob") 1990).age :=
  C7_from_birth_year_deterministic ("Bob") ("Bob") 1990 1990 rfl rfl

/-- Claim C8: reading `c.area` returns exactly `3.14 * c.radius ** 2` (the
getters are pure functions of the state, so reading modifies nothing); after
`Circle(5)` then `c.radius = 10`, the radius reads 10 and the area reads
314. -/
theorem C8_area (c : Circle) (r : ℚ) (h : c._radius = Option.some r) :
    Circle.area c = Except.ok ((3.14 : ℚ) * r ^ 2) ∧
    Circle.radius (Circle.radius_set (Circle.init 5) 10).1 = Except.ok 10 ∧
    Circle.area (Circle.radius_set (Circle.init 5) 10).1 = Except.ok 314 := by
  refine ⟨?_, ?_, ?_⟩
  · simp [Circle.area, Circle.radius, h]
  · norm_num [Circle.radius, Circle.radius_set, Circle.init]
  · norm_num [Circle.area, Circle.radius, Circle.radius_set, Circle.init]

/-- Claim C8 witness: the area of `Circle(1)` is 3.14. -/
theorem C8_area_witness :
    Circle.area (Circle.init 1) = Except.ok ((3.14 : ℚ) * 1 ^ 2) ∧
    Circle.radius (Circle.radius_set (Circle.init 5) 10).1 = Except.ok 10 ∧
    Circle.area (Circle.radius_set (Circle.init 5) 10).1 = Except.ok 314 :=
  C8_area (Circle.init 1) 1 rfl

/-- Claim C9: the constructor performs no validation: for every `v`, including
zero and negative values, `Circle(v)` succeeds, stores `v` verbatim in
`_radius`, and the radius getter returns it. -/
theorem C9_init_no_validation (v : ℚ) :
    (Circle.init v)._radius = Option.some v ∧
    Circle.radius (Circle.init v) = Except.ok v :=
  ⟨rfl, rfl⟩

/-- Claim C10: after executing `del c.radius`, the internal `_radius` attribute
no longer exists, so any subsequent read of `c.radius`, and hence of `c.area`,
raises `AttributeError` rather than returning a value. -/
theorem C10_deleter (c : Circle) :
    ((Circle.radius_del c).1)._radius = Option.none ∧
    Circle.radius (Circle.radius_del c).1 = Except.error (PyError.attributeError noRadiusMsg) ∧
    Circle.area (Circle.radius_del c).1 = Except.error (PyError.attributeError noRadiusMsg) := by
  obtain ⟨ro⟩ := c
  cases ro <;> simp [Circle.radius_del, Circle.radius, Circle.area]

end Decorators
